import Mathlib

/-! # Chat widget client (`static/chat.js`): the send / render cycle

A shallow embedding of `send()` and of the promise chain it starts
(`fetch(...).then(r => r.json()).then(data => ...).catch(e => console.error(e))`),
as explicit state passing over the part of the page the script reads and writes:
the `user` and `msg` fields, the children of the `messages` panel, the panel's
scroll offset and the console.

Values coming back from the server are modelled as parsed JSON values with the
JavaScript semantics the handler relies on: property access (throwing on `null`),
strict equality with a string, and string conversion inside template literals.

The two listeners of lines 1-9 (click on `send`, Enter in `msg`) only call
`send()`, so every invocation is an application of `send` to the page state at
that moment, and every settled request an application of `settle` to the page
state at the moment the response arrives.
-/

namespace Chat

/-! ## JavaScript values and errors -/

/-- Values thrown inside the promise chain. `other` stands for whatever `fetch`
rejects with on a network failure. -/
inductive JsError where
  | typeError
  | syntaxError
  | other (name : String)
  deriving DecidableEq, Repr

/-- A value produced by `JSON.parse`. A number is represented by the string that
JavaScript's number-to-string conversion yields for it; an object by the list of
its own properties. -/
inductive Json where
  | null
  | bool (b : Bool)
  | num (repr : String)
  | str (s : String)
  | arr (xs : List Json)
  | obj (kvs : List (String × Json))
  deriving Repr

/-- Own property lookup in a parsed object. -/
def lookup (key : String) : List (String × Json) → Option Json
  | [] => none
  | (k, v) :: rest => if k = key then some v else lookup key rest

/-- Property access `v.key`. Reading a property of `null` throws a `TypeError`;
on an object it is the own property or `undefined` (`none`); on every other
parsed value the names used by the script (`messages`, `from`, `text`) are
`undefined`. -/
def Json.prop (v : Json) (key : String) : Except JsError (Option Json) :=
  match v with
  | .null => .error .typeError
  | .obj kvs => .ok (lookup key kvs)
  | _ => .ok none

/-- Strict equality `v === s` of a possibly `undefined` value with a string. -/
def strictEqStr (v : Option Json) (s : String) : Bool :=
  match v with
  | some (.str t) => t == s
  | _ => false

/-- Whether a parsed object has an own property of the given name. -/
def hasKey (key : String) : List (String × Json) → Bool
  | [] => false
  | (k, _) :: rest => k == key || hasKey key rest

mutual
/-- String conversion of a parsed value, as a template literal performs it. An
object converts to `[object Object]`, unless it has an own `toString` property,
which is then not callable and makes the conversion throw a `TypeError`; an
array converts to its elements joined with commas. -/
def Json.toStr : Json → Except JsError String
  | .null => .ok "null"
  | .bool b => .ok (if b then "true" else "false")
  | .num r => .ok r
  | .str s => .ok s
  | .arr xs => joinElems xs
  | .obj kvs => if hasKey "toString" kvs then .error .typeError else .ok "[object Object]"

/-- The join of `Array.prototype.join` with separator `,`: `null` elements give
the empty string, the others their string conversion. -/
def joinElems : List Json → Except JsError String
  | [] => .ok ""
  | x :: rest =>
    match (match x with
      | .null => (Except.ok "" : Except JsError String)
      | y => Json.toStr y) with
    | .error e => .error e
    | .ok a =>
      match rest with
      | [] => .ok a
      | _ :: _ =>
        match joinElems rest with
        | .error e => .error e
        | .ok b => .ok (a ++ "," ++ b)
end

/-- String conversion of a possibly `undefined` value. -/
def toStr : Option Json → Except JsError String
  | none => .ok "undefined"
  | some v => v.toStr

/-! ## Page state -/

/-- How the content of a transcript entry was set: `el.innerHTML = s` (the
string is interpreted as markup) or `el.textContent = s` (plain text). -/
inductive Content where
  | innerHTML (markup : String)
  | textContent (text : String)
  deriving DecidableEq, Repr

/-- A `div` appended to the `messages` panel. -/
structure Entry where
  className : String
  content : Content
  deriving DecidableEq, Repr

/-- The part of the page the script reads and writes: the value of the `user`
field, the value of the `msg` field, the children of the `messages` panel in
document order, the value last assigned to the panel's `scrollTop`, and the
values logged with `console.error`. -/
structure UI where
  user : String
  msg : String
  messages : List Entry
  scrollTop : Nat
  console : List JsError
  deriving DecidableEq, Repr

/-! ## The request -/

/-- The body handed to `fetch`: `JSON.stringify` applied to a value. -/
inductive Body where
  | jsonStringify (v : Json)
  deriving Repr

/-- A call of `fetch(url, {method, headers, body})`. -/
structure Request where
  url : String
  method : String
  headers : List (String × String)
  body : Body
  deriving Repr

/-- What the callbacks registered by `send` close over: the constant `user`. -/
structure Pending where
  user : String
  deriving DecidableEq, Repr

/-- The result of the synchronous part of `send`: the page afterwards, the
requests issued, and the continuation waiting for the response, if any. -/
structure SendOutcome where
  ui : UI
  requests : List Request
  pending : Option Pending
  deriving Repr

/-- The sender name of line 12: `document.getElementById("user").value || "User"`.
A string is falsy exactly when it is empty. -/
def senderName (value : String) : String :=
  if value = "" then "User" else value

/-- The synchronous part of `send()` (lines 11-19): read the two fields, return
at once when the text is empty, otherwise issue the `fetch`. -/
def send (ui : UI) : SendOutcome :=
  let user := senderName ui.user
  let text := ui.msg
  if text = "" then
    { ui := ui, requests := [], pending := none }
  else
    { ui := ui
      requests :=
        [{ url := "/api/message"
           method := "POST"
           headers := [("Content-Type", "application/json")]
           body := .jsonStringify (.obj [("user", .str user), ("text", .str text)]) }]
      pending := some { user := user } }

/-! ## Handling the response -/

/-- The body of the `forEach` callback up to `appendChild` (lines 25-31): the
element built for one message, or the error thrown while building it. -/
def renderMessage (user : String) (m : Json) : Except JsError Entry :=
  match m.prop "from" with
  | .error e => .error e
  | .ok sender =>
    let className := if strictEqStr sender user then "msg user" else "msg bot"
    if strictEqStr sender "VoteBot" then
      match toStr sender with
      | .error e => .error e
      | .ok f =>
        match m.prop "text" with
        | .error e => .error e
        | .ok body =>
          match toStr body with
          | .error e => .error e
          | .ok t =>
            .ok { className := className
                  content := .innerHTML ("<strong>" ++ f ++ ":</strong> " ++ t) }
    else
      match toStr sender with
      | .error e => .error e
      | .ok f =>
        match m.prop "text" with
        | .error e => .error e
        | .ok body =>
          match toStr body with
          | .error e => .error e
          | .ok t =>
            .ok { className := className
                  content := .textContent (f ++ ": " ++ t) }

/-- The loop `data.messages.forEach(m => ...)` over the panel's children: each
element is appended as soon as it is built, and an error thrown for one message
ends the loop with the elements appended so far still in place. -/
def forEachAppend (user : String) : List Entry → List Json → List Entry × Except JsError Unit
  | box, [] => (box, .ok ())
  | box, m :: rest =>
    match renderMessage user m with
    | .error e => (box, .error e)
    | .ok el => forEachAppend user (box ++ [el]) rest

/-- The callback `data => ...` of lines 21-36, run on the page as it is when the
response arrives. `scrollHeight` is the panel's layout height as a function of
its children. Calling `forEach` on anything but an array throws a `TypeError`. -/
def onData (scrollHeight : List Entry → Nat) (user : String) (ui : UI) (data : Json) :
    UI × Except JsError Unit :=
  match data.prop "messages" with
  | .error e => (ui, .error e)
  | .ok (some (.arr ms)) =>
    match forEachAppend user ui.messages ms with
    | (box, .error e) => ({ ui with messages := box }, .error e)
    | (box, .ok ()) =>
      ({ ui with messages := box, msg := "", scrollTop := scrollHeight box }, .ok ())
  | .ok _ => (ui, .error .typeError)

/-- How the promise returned by `fetch` settles: rejected (network failure), or
fulfilled with a response of some HTTP status whose body `r.json()` parses to a
value, or fails to parse (`none`). -/
inductive FetchResult where
  | rejected (e : JsError)
  | response (status : Nat) (body : Option Json)
  deriving Repr

/-- The first link of the chain, `.then(r => r.json())`: a rejection passes
through, a body that is not valid JSON rejects with a `SyntaxError`. -/
def thenJson : FetchResult → Except JsError Json
  | .rejected e => .error e
  | .response _ none => .error .syntaxError
  | .response _ (some data) => .ok data

/-- The whole chain of lines 15-37, run when the `fetch` started by `send`
settles: the page afterwards, and how the promise returned by `.catch` settles
(`.error` would be an unhandled rejection). -/
def settle (scrollHeight : List Entry → Nat) (p : Pending) (ui : UI) (r : FetchResult) :
    UI × Except JsError Unit :=
  match thenJson r with
  | .error e => ({ ui with console := ui.console ++ [e] }, .ok ())
  | .ok data =>
    match onData scrollHeight p.user ui data with
    | (ui2, .error e) => ({ ui2 with console := ui2.console ++ [e] }, .ok ())
    | (ui2, .ok ()) => (ui2, .ok ())

/-! ## The data model of the specification -/

/-- A message record `{from, text}` with both fields strings. -/
structure Message where
  «from» : String
  text : String
  deriving DecidableEq, Repr

/-- The parsed JSON object of a message record. -/
def Message.toJson (m : Message) : Json :=
  .obj [("from", .str m.«from»), ("text", .str m.text)]

/-- The parsed JSON object `{messages: [...]}` of a well-formed response. -/
def sendResult (ms : List Message) : Json :=
  .obj [("messages", .arr (ms.map Message.toJson))]

/-- The transcript entry the specification prescribes for a message record and
a sender name: class by equality of `from` with the sender name, content by
whether `from` is `VoteBot`. -/
def Message.entry (user : String) (m : Message) : Entry :=
  { className := if m.«from» = user then "msg user" else "msg bot"
    content :=
      if m.«from» = "VoteBot" then .innerHTML ("<strong>" ++ m.«from» ++ ":</strong> " ++ m.text)
      else .textContent (m.«from» ++ ": " ++ m.text) }

/-- JavaScript white space and line terminators, the characters `trim` strips. -/
def isJsWhiteSpace (c : Char) : Bool :=
  c.toNat ∈ [9, 10, 11, 12, 13, 32, 160, 5760, 8232, 8233, 8239, 8287, 12288, 65279]
    || (8192 ≤ c.toNat && c.toNat ≤ 8202)

/-- The `trim` of a string: leading and trailing white space removed. -/
def jsTrim (s : String) : String :=
  String.mk ((s.data.dropWhile isJsWhiteSpace).reverse.dropWhile isJsWhiteSpace).reverse

/-- The sender name as the specification words it: the trimmed value of the name
field, `User` when that is empty. -/
def trimmedSenderName (value : String) : String :=
  if jsTrim value = "" then "User" else jsTrim value

/-- Whether a settled `fetch` is a transport or parse failure: the promise was
rejected, or the response body is not valid JSON. -/
def FetchResult.failed : FetchResult → Bool
  | .rejected _ => true
  | .response _ none => true
  | .response _ (some _) => false

/-! ## Lemmas on rendering and the loop -/

theorem toStr_str (s : String) : toStr (some (.str s)) = .ok s := rfl

theorem renderMessage_toJson (user : String) (m : Message) :
    renderMessage user m.toJson = .ok (m.entry user) := by
  simp only [renderMessage, Message.toJson, Json.prop, lookup, strictEqStr, toStr_str,
    Message.entry, beq_iff_eq, if_true]
  split <;> rfl

theorem forEachAppend_records (user : String) (ms : List Message) (box : List Entry) :
    forEachAppend user box (ms.map Message.toJson)
      = (box ++ ms.map (Message.entry user), .ok ()) := by
  induction ms generalizing box with
  | nil => simp [forEachAppend]
  | cons m rest ih =>
    simp [forEachAppend, renderMessage_toJson, ih]

theorem renderMessage_null (user : String) :
    renderMessage user .null = .error .typeError := rfl

theorem forEachAppend_null (user : String) (pre : List Message) (post : List Json)
    (box : List Entry) :
    forEachAppend user box (pre.map Message.toJson ++ Json.null :: post)
      = (box ++ pre.map (Message.entry user), .error .typeError) := by
  induction pre generalizing box with
  | nil => simp [forEachAppend, renderMessage_null]
  | cons m rest ih =>
    simp [forEachAppend, renderMessage_toJson, ih]

theorem settle_sendResult (scrollHeight : List Entry → Nat) (p : Pending) (ui : UI)
    (status : Nat) (ms : List Message) :
    settle scrollHeight p ui (.response status (some (sendResult ms)))
      = ({ ui with
            messages := ui.messages ++ ms.map (Message.entry p.user)
            msg := ""
            scrollTop := scrollHeight (ui.messages ++ ms.map (Message.entry p.user)) },
          .ok ()) := by
  simp [settle, thenJson, onData, sendResult, Json.prop, lookup, forEachAppend_records]

theorem settle_failed (scrollHeight : List Entry → Nat) (p : Pending) (ui : UI)
    (r : FetchResult) (hr : r.failed = true) :
    ∃ e, settle scrollHeight p ui r = ({ ui with console := ui.console ++ [e] }, .ok ()) := by
  cases r with
  | rejected e => exact ⟨e, rfl⟩
  | response status body =>
    cases body with
    | none => exact ⟨.syntaxError, rfl⟩
    | some d => simp [FetchResult.failed] at hr

theorem strictEqStr_iff (v : Option Json) (s : String) :
    strictEqStr v s = true ↔ v = some (.str s) := by
  cases v with
  | none => simp [strictEqStr]
  | some j => cases j <;> simp [strictEqStr]

theorem renderMessage_ok (user : String) (m : Json) (e : Entry)
    (h : renderMessage user m = .ok e) :
    ∃ sender body f t, m.prop "from" = .ok sender ∧ m.prop "text" = .ok body ∧
      toStr sender = .ok f ∧ toStr body = .ok t ∧
      e.className = (if strictEqStr sender user then "msg user" else "msg bot") ∧
      e.content = (if strictEqStr sender "VoteBot"
        then .innerHTML ("<strong>" ++ f ++ ":</strong> " ++ t)
        else .textContent (f ++ ": " ++ t)) := by
  unfold renderMessage at h
  cases hp : m.prop "from" with
  | error x => simp [hp] at h
  | ok sender =>
    cases hf : toStr sender with
    | error x => simp [hp, hf] at h
    | ok f =>
      cases hb : m.prop "text" with
      | error x => simp [hp, hf, hb] at h
      | ok body =>
        cases ht : toStr body with
        | error x => simp [hp, hf, hb, ht] at h
        | ok t =>
          simp only [hp, hf, hb, ht] at h
          refine ⟨sender, body, f, t, rfl, rfl, hf, ht, ?_⟩
          split at h
          · rename_i hv
            injection h with h
            subst h
            simp [hv]
          · rename_i hv
            injection h with h
            subst h
            simp [hv]

theorem onData_name_field (scrollHeight : List Entry → Nat) (user : String) (ui : UI)
    (name : String) (data : Json) :
    (onData scrollHeight user { ui with user := name } data).1.messages
        = (onData scrollHeight user ui data).1.messages ∧
      (onData scrollHeight user { ui with user := name } data).2
        = (onData scrollHeight user ui data).2 := by
  unfold onData
  cases data.prop "messages" with
  | error x => exact ⟨rfl, rfl⟩
  | ok v =>
    cases v with
    | none => exact ⟨rfl, rfl⟩
    | some j =>
      cases j with
      | arr ms =>
        simp only
        cases forEachAppend user ui.messages ms with
        | mk box res => cases res <;> exact ⟨rfl, rfl⟩
      | _ => exact ⟨rfl, rfl⟩

theorem settle_messages (scrollHeight : List Entry → Nat) (p : Pending) (ui : UI)
    (r : FetchResult) :
    (settle scrollHeight p ui r).1.messages
      = (match thenJson r with
        | .error _ => ui.messages
        | .ok data => (onData scrollHeight p.user ui data).1.messages) := by
  unfold settle
  cases thenJson r with
  | error x => rfl
  | ok data =>
    simp only
    generalize onData scrollHeight p.user ui data = o
    rcases o with ⟨u2, x | u⟩ <;> rfl

theorem renderMessage_content_any_name (user other : String) (m : Json) :
    (renderMessage user m).map (fun e => e.content)
      = (renderMessage other m).map (fun e => e.content) := by
  unfold renderMessage
  cases m.prop "from" with
  | error x => rfl
  | ok sender =>
    simp only
    cases toStr sender with
    | error x => split <;> rfl
    | ok f =>
      simp only
      cases m.prop "text" with
      | error x => split <;> rfl
      | ok body =>
        simp only
        cases toStr body with
        | error x => split <;> rfl
        | ok t => split <;> rfl

theorem settle_not_array (scrollHeight : List Entry → Nat) (p : Pending) (ui : UI)
    (status : Nat) (data : Json)
    (h : ∀ ms, data.prop "messages" ≠ .ok (some (.arr ms))) :
    settle scrollHeight p ui (.response status (some data))
      = ({ ui with console := ui.console ++ [.typeError] }, .ok ()) := by
  cases data with
  | obj kvs =>
    cases hl : lookup "messages" kvs with
    | none => simp [settle, thenJson, onData, Json.prop, hl]
    | some j =>
      cases j with
      | arr ms => exact absurd (by simp [Json.prop, hl]) (h ms)
      | _ => simp [settle, thenJson, onData, Json.prop, hl]
  | _ => rfl

theorem settle_null_entry (scrollHeight : List Entry → Nat) (p : Pending) (ui : UI)
    (status : Nat) (pre : List Message) (post : List Json) :
    settle scrollHeight p ui
        (.response status
          (some (.obj [("messages", .arr (pre.map Message.toJson ++ Json.null :: post))])))
      = ({ ui with
            messages := ui.messages ++ pre.map (Message.entry p.user)
            console := ui.console ++ [.typeError] },
          .ok ()) := by
  simp [settle, thenJson, onData, Json.prop, lookup, forEachAppend_null]

/-! ## The send guard and the request -/

/-- C1 (empty-text guard): when the message field is empty, whatever the name
field and the transcript hold, `send` issues no request, registers no response
handler, and leaves the page (transcript, message field, name field) as it was. -/
theorem send_empty_text_is_noop (ui : UI) (h : ui.msg = "") :
    (send ui).requests = [] ∧ (send ui).requests.length = 0 ∧ (send ui).pending = none ∧
      (send ui).ui = ui ∧ (send ui).ui.messages = ui.messages ∧
      (send ui).ui.msg = ui.msg ∧ (send ui).ui.user = ui.user := by
  simp [send, h]

theorem send_empty_text_is_noop_witness :
    (⟨"Alice", "", [⟨"msg bot", .textContent "VoteBot: hello"⟩], 0, []⟩ : UI).msg = "" ∧
      (send ⟨"Alice", "", [⟨"msg bot", .textContent "VoteBot: hello"⟩], 0, []⟩).pending = none ∧
      (send ⟨"Alice", "", [⟨"msg bot", .textContent "VoteBot: hello"⟩], 0, []⟩).ui.messages
        = [⟨"msg bot", .textContent "VoteBot: hello"⟩] :=
  ⟨rfl,
    (send_empty_text_is_noop ⟨"Alice", "", [⟨"msg bot", .textContent "VoteBot: hello"⟩], 0, []⟩
      rfl).2.2.1,
    (send_empty_text_is_noop ⟨"Alice", "", [⟨"msg bot", .textContent "VoteBot: hello"⟩], 0, []⟩
      rfl).2.2.2.2.1⟩

/-- C2 (request construction): when the message field is not empty, `send`
issues exactly one request: a POST to `/api/message` with the single header
`Content-Type: application/json` and as body the JSON of an object with exactly
the fields `user` and `text`, where `text` is the message field's value and
`user` is the name field's value, or `User` when the name field is empty. -/
theorem send_issues_one_post (ui : UI) (h : ui.msg ≠ "") :
    ∃ u : String,
      (send ui).requests
        = [{ url := "/api/message"
             method := "POST"
             headers := [("Content-Type", "application/json")]
             body := .jsonStringify (.obj [("user", .str u), ("text", .str ui.msg)]) }] ∧
      (send ui).requests.length = 1 ∧
      (ui.user = "" → u = "User") ∧ (ui.user ≠ "" → u = ui.user) := by
  refine ⟨senderName ui.user, ?_, ?_, ?_, ?_⟩
  · simp [send, h]
  · simp [send, h]
  · intro hu; simp [senderName, hu]
  · intro hu; simp [senderName, hu]

theorem send_issues_one_post_witness :
    (⟨"", "hello", [], 0, []⟩ : UI).msg ≠ "" ∧
      ∃ u : String,
        (send ⟨"", "hello", [], 0, []⟩).requests
          = [{ url := "/api/message"
               method := "POST"
               headers := [("Content-Type", "application/json")]
               body := .jsonStringify (.obj [("user", .str u), ("text", .str "hello")]) }] ∧
        (send ⟨"", "hello", [], 0, []⟩).requests.length = 1 ∧
        (("" : String) = "" → u = "User") ∧ (("" : String) ≠ "" → u = "") :=
  ⟨by decide, send_issues_one_post ⟨"", "hello", [], 0, []⟩ (by decide)⟩

/-- C3, as the code has it: the sender name put in the request body and kept
for classification is the name field's value as it stands, white space
included, and `User` when the value is the empty string. -/
theorem sender_name_is_untrimmed (ui : UI) (h : ui.msg ≠ "") :
    (send ui).pending = some { user := senderName ui.user } ∧
      (send ui).requests.map (fun r => r.body)
        = [.jsonStringify (.obj [("user", .str (senderName ui.user)), ("text", .str ui.msg)])] ∧
      (ui.user ≠ "" → senderName ui.user = ui.user) ∧
      (ui.user = "" → senderName ui.user = "User") := by
  refine ⟨?_, ?_, ?_, ?_⟩
  · simp [send, h]
  · simp [send, h]
  · intro hu; simp [senderName, hu]
  · intro hu; simp [senderName, hu]

theorem sender_name_is_untrimmed_witness :
    (⟨"  Alice  ", "hi", [], 0, []⟩ : UI).msg ≠ "" ∧
      (send ⟨"  Alice  ", "hi", [], 0, []⟩).pending = some { user := "  Alice  " } :=
  ⟨by decide, (sender_name_is_untrimmed ⟨"  Alice  ", "hi", [], 0, []⟩ (by decide)).1⟩

/-- C3 as stated fails: with `  Alice  ` in the name field the trimmed sender
name is `Alice`, but `send` keeps and sends `  Alice  `; and a name field of
blanks only is sent as it is, not replaced by `User`. -/
theorem sender_name_trimmed_counterexample :
    trimmedSenderName "  Alice  " = "Alice" ∧
      senderName "  Alice  " = "  Alice  " ∧
      (send ⟨"  Alice  ", "hi", [], 0, []⟩).pending = some { user := "  Alice  " } ∧
      (send ⟨"  Alice  ", "hi", [], 0, []⟩).pending
        ≠ some { user := trimmedSenderName "  Alice  " } ∧
      (send ⟨"  Alice  ", "hi", [], 0, []⟩).requests.map (fun r => r.body)
        = [.jsonStringify (.obj [("user", .str "  Alice  "), ("text", .str "hi")])] ∧
      trimmedSenderName "   " = "User" ∧ senderName "   " = "   " := by
  refine ⟨by decide, by decide, by decide, by decide, rfl, by decide, by decide⟩

/-! ## The success path -/

/-- C4 (success path): for every page state at the time the response arrives
and every well-formed response `{messages: ms}` (any HTTP status, `ms` possibly
empty), the chain leaves the transcript as the old transcript followed by one
entry per element of `ms`, in order, each the element the loop body builds for
that message; the old entries keep their positions; the message field is then
empty; nothing is logged and the chain ends fulfilled. -/
theorem success_appends_in_order (scrollHeight : List Entry → Nat) (user : String) (ui : UI)
    (status : Nat) (ms : List Message) :
    (settle scrollHeight ⟨user⟩ ui (.response status (some (sendResult ms)))).1.messages
        = ui.messages ++ ms.map (Message.entry user) ∧
      (settle scrollHeight ⟨user⟩ ui (.response status (some (sendResult ms)))).1.messages.length
        = ui.messages.length + ms.length ∧
      (∀ i : Nat,
        (settle scrollHeight ⟨user⟩ ui
            (.response status (some (sendResult ms)))).1.messages[ui.messages.length + i]?
          = (ms[i]?).map (Message.entry user)) ∧
      (∀ j : Nat, j < ui.messages.length →
        (settle scrollHeight ⟨user⟩ ui (.response status (some (sendResult ms)))).1.messages[j]?
          = ui.messages[j]?) ∧
      (∀ m ∈ ms, renderMessage user m.toJson = .ok (m.entry user)) ∧
      (settle scrollHeight ⟨user⟩ ui (.response status (some (sendResult ms)))).1.msg = "" ∧
      (settle scrollHeight ⟨user⟩ ui (.response status (some (sendResult ms)))).1.console
        = ui.console ∧
      (settle scrollHeight ⟨user⟩ ui (.response status (some (sendResult ms)))).2 = .ok () := by
  rw [settle_sendResult]
  refine ⟨rfl, by simp, ?_, ?_, fun m _ => renderMessage_toJson user m, rfl, rfl, rfl⟩
  · intro i
    simp [List.getElem?_append_right, List.getElem?_map]
  · intro j hj
    simp [List.getElem?_append_left hj]

/-! ## Rendering one message -/

/-- C5 (classification): for every captured sender name and every message
record, the element built has class `msg user` exactly when `from` equals the
captured name and `msg bot` otherwise; for an arbitrary parsed value the same
holds whenever an element is built at all; the name used is the one `send`
captured, and the name field's content when the response arrives has no
influence on the transcript. -/
theorem class_by_captured_name (scrollHeight : List Entry → Nat) (user : String) :
    (∀ m : Message, ∃ e : Entry, renderMessage user m.toJson = .ok e ∧
        (e.className = "msg user" ↔ m.«from» = user) ∧
        (e.className = "msg bot" ↔ m.«from» ≠ user)) ∧
      (∀ (m : Json) (e : Entry), renderMessage user m = .ok e →
        (e.className = "msg user" ↔ m.prop "from" = .ok (some (.str user))) ∧
        (e.className = "msg bot" ↔ m.prop "from" ≠ .ok (some (.str user)))) ∧
      (∀ (ui : UI) (name : String) (r : FetchResult),
        (settle scrollHeight ⟨user⟩ { ui with user := name } r).1.messages
          = (settle scrollHeight ⟨user⟩ ui r).1.messages) ∧
      (∀ ui : UI, ui.msg ≠ "" → (send ui).pending = some ⟨senderName ui.user⟩) := by
  refine ⟨?_, ?_, ?_, ?_⟩
  · intro m
    refine ⟨m.entry user, renderMessage_toJson user m, ?_, ?_⟩
    · by_cases hu : m.«from» = user <;> simp [Message.entry, hu]
    · by_cases hu : m.«from» = user <;> simp [Message.entry, hu]
  · intro m e he
    obtain ⟨sender, body, f, t, hp, -, -, -, hc, -⟩ := renderMessage_ok user m e he
    rw [hc, hp]
    by_cases hs : strictEqStr sender user = true
    · have := (strictEqStr_iff sender user).1 hs
      simp [hs, ← this]
    · have : sender ≠ some (.str user) := fun hx => hs ((strictEqStr_iff sender user).2 hx)
      simp [hs, this]
  · intro ui name r
    rw [settle_messages, settle_messages]
    cases thenJson r with
    | error x => rfl
    | ok data => exact (onData_name_field scrollHeight user ui name data).1
  · intro ui h
    simp [send, h]

/-- C6 (content rule): for every message record, when `from` is `VoteBot` the
element's content is set through `innerHTML` to
`<strong>` + from + `:</strong> ` + text, and otherwise through `textContent`
to from + `: ` + text; for an arbitrary parsed value the same holds, on the
string conversions of `from` and `text`, whenever an element is built; and the
content does not depend on the sender name. -/
theorem content_by_sender (user : String) :
    (∀ m : Message, ∃ e : Entry, renderMessage user m.toJson = .ok e ∧
        (m.«from» = "VoteBot" →
          e.content = .innerHTML ("<strong>" ++ m.«from» ++ ":</strong> " ++ m.text)) ∧
        (m.«from» ≠ "VoteBot" → e.content = .textContent (m.«from» ++ ": " ++ m.text))) ∧
      (∀ (m : Json) (e : Entry), renderMessage user m = .ok e →
        ∃ sender body f t, m.prop "from" = .ok sender ∧ m.prop "text" = .ok body ∧
          toStr sender = .ok f ∧ toStr body = .ok t ∧
          (sender = some (.str "VoteBot") →
            e.content = .innerHTML ("<strong>" ++ f ++ ":</strong> " ++ t)) ∧
          (sender ≠ some (.str "VoteBot") → e.content = .textContent (f ++ ": " ++ t))) ∧
      (∀ (other : String) (m : Json),
        (renderMessage user m).map (fun e => e.content)
          = (renderMessage other m).map (fun e => e.content)) := by
  refine ⟨?_, ?_, fun other m => renderMessage_content_any_name user other m⟩
  · intro m
    refine ⟨m.entry user, renderMessage_toJson user m, ?_, ?_⟩
    · intro hv; simp [Message.entry, hv]
    · intro hv; simp [Message.entry, hv]
  · intro m e he
    obtain ⟨sender, body, f, t, hp, hb, hf, ht, -, hc⟩ := renderMessage_ok user m e he
    refine ⟨sender, body, f, t, hp, hb, hf, ht, ?_, ?_⟩
    · intro hs
      rw [hc, (strictEqStr_iff sender "VoteBot").2 hs]
      rfl
    · intro hs
      have : strictEqStr sender "VoteBot" = false := by
        cases hx : strictEqStr sender "VoteBot" with
        | false => rfl
        | true => exact absurd ((strictEqStr_iff sender "VoteBot").1 hx) hs
      rw [hc, this]
      rfl

/-- C7, as the code has it: handling the Alice/VoteBot response adds exactly two
entries in that order; the first is the plain text `Alice: hi` with class
`msg user` when the sender name is `Alice` and `msg bot` otherwise; the second
is the markup `<strong>VoteBot:</strong> A:1<br>B:2` with class `msg user`
when the sender name is `VoteBot` and `msg bot` otherwise. -/
theorem alice_votebot_round_trip (scrollHeight : List Entry → Nat) (user : String) (ui : UI)
    (status : Nat) :
    (settle scrollHeight ⟨user⟩ ui
        (.response status
          (some (sendResult [⟨"Alice", "hi"⟩, ⟨"VoteBot", "A:1<br>B:2"⟩])))).1.messages
      = ui.messages ++
        [{ className := if user = "Alice" then "msg user" else "msg bot"
           content := .textContent "Alice: hi" },
         { className := if user = "VoteBot" then "msg user" else "msg bot"
           content := .innerHTML "<strong>VoteBot:</strong> A:1<br>B:2" }] := by
  rw [settle_sendResult]
  have h1 : ("Alice" = user) = (user = "Alice") := propext eq_comm
  have h2 : ("VoteBot" = user) = (user = "VoteBot") := propext eq_comm
  have h3 : ("Alice" : String) ≠ "VoteBot" := by decide
  have h4 : "Alice" ++ ": " ++ "hi" = "Alice: hi" := by decide
  have h5 : "<strong>" ++ "VoteBot" ++ ":</strong> " ++ "A:1<br>B:2"
      = "<strong>VoteBot:</strong> A:1<br>B:2" := by decide
  simp only [List.map, Message.entry, h1, h2, h3, h4, h5, if_true, if_false]

/-- C7 as stated fails: a user who entered `VoteBot` as name gets the second
entry, the one from `VoteBot`, with class `msg user`, not `msg bot`. -/
theorem alice_votebot_counterexample :
    (send ⟨"VoteBot", "hi", [], 0, []⟩).pending = some { user := "VoteBot" } ∧
      (settle List.length ⟨"VoteBot"⟩ ⟨"VoteBot", "hi", [], 0, []⟩
          (.response 200
            (some (sendResult [⟨"Alice", "hi"⟩, ⟨"VoteBot", "A:1<br>B:2"⟩])))).1.messages
        = [{ className := "msg bot", content := .textContent "Alice: hi" },
           { className := "msg user"
             content := .innerHTML "<strong>VoteBot:</strong> A:1<br>B:2" }] ∧
      ((settle List.length ⟨"VoteBot"⟩ ⟨"VoteBot", "hi", [], 0, []⟩
          (.response 200
            (some (sendResult [⟨"Alice", "hi"⟩, ⟨"VoteBot", "A:1<br>B:2"⟩])))).1.messages.map
          (fun e => e.className))[1]? ≠ some "msg bot" := by
  refine ⟨by decide, by decide, by decide⟩

/-! ## Failure paths -/

/-- C8 (failure isolation): when the message field is not empty and the request
started by `send` fails in transport (the `fetch` promise is rejected) or in
parsing (the body is not valid JSON), the chain leaves the message field, the
name field and the transcript as they are, on whatever page state the failure
arrives, logs the error to the console and ends fulfilled. -/
theorem failure_leaves_page (scrollHeight : List Entry → Nat) (ui : UI) (h : ui.msg ≠ "")
    (r : FetchResult) (hr : r.failed = true) :
    ∃ (p : Pending) (e : JsError), (send ui).pending = some p ∧ (send ui).ui = ui ∧
      (send ui).requests.length = 1 ∧
      (settle scrollHeight p ui r).1.msg = ui.msg ∧
      (settle scrollHeight p ui r).1.user = ui.user ∧
      (settle scrollHeight p ui r).1.messages = ui.messages ∧
      (settle scrollHeight p ui r).1.console = ui.console ++ [e] ∧
      (settle scrollHeight p ui r).2 = .ok () ∧
      (∀ later : UI,
        settle scrollHeight p later r
          = ({ later with console := later.console ++ [e] }, .ok ())) := by
  obtain ⟨e, he⟩ := settle_failed scrollHeight ⟨senderName ui.user⟩ ui r hr
  refine ⟨⟨senderName ui.user⟩, e, by simp [send, h], by simp [send, h], by simp [send, h],
    by rw [he], by rw [he], by rw [he], by rw [he], by rw [he], ?_⟩
  intro later
  obtain ⟨e2, he2⟩ := settle_failed scrollHeight ⟨senderName ui.user⟩ later r hr
  have : e2 = e := by
    cases r with
    | rejected x =>
      simp [settle, thenJson] at he he2
      rw [← he, ← he2]
    | response status body =>
      cases body with
      | none =>
        simp [settle, thenJson] at he he2
        rw [← he, ← he2]
      | some d => simp [FetchResult.failed] at hr
  rw [he2, this]

theorem failure_leaves_page_witness :
    (⟨"Alice", "hi", [⟨"msg bot", .textContent "Bob: yo"⟩], 0, []⟩ : UI).msg ≠ "" ∧
      (FetchResult.rejected (.other "NetworkError")).failed = true ∧
      ∃ (p : Pending) (e : JsError),
        (send ⟨"Alice", "hi", [⟨"msg bot", .textContent "Bob: yo"⟩], 0, []⟩).pending = some p ∧
        (send ⟨"Alice", "hi", [⟨"msg bot", .textContent "Bob: yo"⟩], 0, []⟩).ui
          = ⟨"Alice", "hi", [⟨"msg bot", .textContent "Bob: yo"⟩], 0, []⟩ ∧
        (send ⟨"Alice", "hi", [⟨"msg bot", .textContent "Bob: yo"⟩], 0, []⟩).requests.length = 1 ∧
        (settle List.length p ⟨"Alice", "hi", [⟨"msg bot", .textContent "Bob: yo"⟩], 0, []⟩
            (.rejected (.other "NetworkError"))).1.msg = "hi" ∧
        (settle List.length p ⟨"Alice", "hi", [⟨"msg bot", .textContent "Bob: yo"⟩], 0, []⟩
            (.rejected (.other "NetworkError"))).1.user = "Alice" ∧
        (settle List.length p ⟨"Alice", "hi", [⟨"msg bot", .textContent "Bob: yo"⟩], 0, []⟩
            (.rejected (.other "NetworkError"))).1.messages
          = [⟨"msg bot", .textContent "Bob: yo"⟩] ∧
        (settle List.length p ⟨"Alice", "hi", [⟨"msg bot", .textContent "Bob: yo"⟩], 0, []⟩
            (.rejected (.other "NetworkError"))).1.console = [] ++ [e] ∧
        (settle List.length p ⟨"Alice", "hi", [⟨"msg bot", .textContent "Bob: yo"⟩], 0, []⟩
            (.rejected (.other "NetworkError"))).2 = .ok () ∧
        (∀ later : UI,
          settle List.length p later (.rejected (.other "NetworkError"))
            = ({ later with console := later.console ++ [e] }, .ok ())) :=
  ⟨by decide, rfl,
    failure_leaves_page List.length ⟨"Alice", "hi", [⟨"msg bot", .textContent "Bob: yo"⟩], 0, []⟩
      (by decide) (.rejected (.other "NetworkError")) rfl⟩

/-- C9, as the code has it: the HTTP status is not consulted. A response of any
status is handled exactly as a status-200 response with the same body: with a
well-formed `{messages: ms}` body its entries are appended and the message
field is reset, and with a body that is not valid JSON the failure path is
taken (the error logged, the page otherwise unchanged). -/
theorem status_is_not_consulted (scrollHeight : List Entry → Nat) (p : Pending) (ui : UI)
    (status : Nat) :
    (∀ body : Option Json,
        settle scrollHeight p ui (.response status body)
          = settle scrollHeight p ui (.response 200 body)) ∧
      (∀ ms : List Message,
        settle scrollHeight p ui (.response status (some (sendResult ms)))
          = ({ ui with
                messages := ui.messages ++ ms.map (Message.entry p.user)
                msg := ""
                scrollTop := scrollHeight (ui.messages ++ ms.map (Message.entry p.user)) },
              .ok ())) ∧
      settle scrollHeight p ui (.response status none)
        = ({ ui with console := ui.console ++ [.syntaxError] }, .ok ()) := by
  refine ⟨?_, fun ms => settle_sendResult scrollHeight p ui status ms, rfl⟩
  intro body
  cases body <;> rfl

/-- C9 as stated fails: a status-500 response whose body is the well-formed
JSON `{messages: [{from: "Alice", text: "hi"}]}` is rendered, one entry is added
to the transcript and the message field is reset; nothing is logged. -/
theorem non_2xx_counterexample :
    (send ⟨"Alice", "hi", [], 0, []⟩).pending = some { user := "Alice" } ∧
      (settle List.length ⟨"Alice"⟩ ⟨"Alice", "hi", [], 0, []⟩
          (.response 500 (some (sendResult [⟨"Alice", "hi"⟩])))).1
        = ⟨"Alice", "", [⟨"msg user", .textContent "Alice: hi"⟩], 1, []⟩ ∧
      (settle List.length ⟨"Alice"⟩ ⟨"Alice", "hi", [], 0, []⟩
          (.response 500 (some (sendResult [⟨"Alice", "hi"⟩])))).1.messages.length = 1 ∧
      (settle List.length ⟨"Alice"⟩ ⟨"Alice", "hi", [], 0, []⟩
          (.response 500 (some (sendResult [⟨"Alice", "hi"⟩])))).1.msg = "" := by
  refine ⟨by decide, by decide, by decide, by decide⟩

/-- C10 (shape mismatch): for a response whose `messages` array holds `k`
well-formed records followed by `null` (and anything after it), the chain adds
exactly the `k` entries of the records before the `null`, in order, adds nothing
for the `null` or what follows, leaves the message field as it is, logs the
`TypeError` and ends fulfilled; for a response whose `messages` property is not
an array (absent included) it adds nothing, leaves the message field as it is
and logs the error; and for some response the failure path leaves a new entry
in the transcript. -/
theorem shape_mismatch_renders_prefix (scrollHeight : List Entry → Nat) (user : String)
    (ui : UI) (status : Nat) :
    (∀ (pre : List Message) (post : List Json),
        settle scrollHeight ⟨user⟩ ui
            (.response status
              (some (.obj [("messages", .arr (pre.map Message.toJson ++ Json.null :: post))])))
          = ({ ui with
                messages := ui.messages ++ pre.map (Message.entry user)
                console := ui.console ++ [.typeError] },
              .ok ()) ∧
        (ui.messages ++ pre.map (Message.entry user)).length = ui.messages.length + pre.length ∧
        (∀ m ∈ pre, renderMessage user m.toJson = .ok (m.entry user))) ∧
      (∀ data : Json, (∀ ms, data.prop "messages" ≠ .ok (some (.arr ms))) →
        settle scrollHeight ⟨user⟩ ui (.response status (some data))
          = ({ ui with console := ui.console ++ [.typeError] }, .ok ())) ∧
      (∃ data : Json,
        ui.messages.length
            < (settle scrollHeight ⟨user⟩ ui (.response status (some data))).1.messages.length ∧
          (settle scrollHeight ⟨user⟩ ui (.response status (some data))).1.msg = ui.msg ∧
          (settle scrollHeight ⟨user⟩ ui (.response status (some data))).1.console
            = ui.console ++ [.typeError]) := by
  refine ⟨?_, ?_, ?_⟩
  · intro pre post
    exact ⟨settle_null_entry scrollHeight ⟨user⟩ ui status pre post, by simp,
      fun m _ => renderMessage_toJson user m⟩
  · intro data h
    exact settle_not_array scrollHeight ⟨user⟩ ui status data h
  · refine ⟨.obj [("messages", .arr ([⟨"Alice", "hi"⟩].map Message.toJson ++ Json.null :: []))],
      ?_⟩
    rw [settle_null_entry]
    simp

end Chat
